import Mathlib

/-!
Shallow embedding of the BMI classification-and-aggregation core of the
NutriKid school nutrition application, together with proofs of the
specification claims about it.

The embedded functions mirror, item by item, the Python helpers in
`app/routes/school.py` and `app/routes/super_admin.py`:
BMI values are rationals (the Python floats involved are exact at every
threshold used), optional fields are `Option`, Python dicts with a fixed
literal key set are structures carrying a `toPairs` view that lists the
keys in the dict-literal order, and code whose only possible runtime fault
is a division by zero is embedded in `Except String` with an explicitly
failing division.
-/

namespace NutriKid

/-- The five BMI categories of the specification. -/
inductive BmiCategory where
  | severelyWasted
  | wasted
  | normal
  | overweight
  | obese
deriving DecidableEq, Repr

/-- A snapshot of a student record as read by the aggregation core:
`bmi` is `none` when height/weight were never recorded; `created_at` and
`updated_at` carry the (month, year) pair the time-bucketed code inspects. -/
structure Student where
  bmi : Option ℚ
  is_beneficiary : Bool
  created_at : Option (ℕ × ℕ)
  updated_at : Option (ℕ × ℕ)
deriving DecidableEq, Repr

/-- Python truthiness of the `bmi` field (`if s.bmi:`): false for `None`
and for a stored value of 0. -/
def Student.bmiTruthy (s : Student) : Bool :=
  match s.bmi with
  | none => false
  | some b => decide (b ≠ 0)

/-- `s.bmi is not None`. -/
def Student.bmiNotNull (s : Student) : Bool :=
  s.bmi.isSome

/-- `s.bmi is not None and s.bmi > 0`, the validity filter used by
`_calculate_accurate_bmi_distribution` and its siblings. -/
def Student.hasValidBmi (s : Student) : Bool :=
  match s.bmi with
  | none => false
  | some b => decide (0 < b)

/-- The five-way threshold chain repeated across the dashboards
(`if bmi < 16 / elif bmi < 18.5 / elif bmi < 25 / elif bmi < 30 / else`). -/
def classify (bmi : ℚ) : BmiCategory :=
  if bmi < 16 then .severelyWasted
  else if bmi < 18.5 then .wasted
  else if bmi < 25 then .normal
  else if bmi < 30 then .overweight
  else .obese

/-- The five-key distribution dict of `_calculate_accurate_bmi_distribution`:
`{'normal': 0, 'wasted': 0, 'severely_wasted': 0, 'overweight': 0, 'obese': 0}`. -/
structure Distribution where
  normal : ℕ
  wasted : ℕ
  severely_wasted : ℕ
  overweight : ℕ
  obese : ℕ
deriving DecidableEq, Repr

/-- The all-zero initial dict. -/
def Distribution.zero : Distribution :=
  { normal := 0, wasted := 0, severely_wasted := 0, overweight := 0, obese := 0 }

/-- The dict viewed as its key/value pairs, in dict-literal order. -/
def Distribution.toPairs (d : Distribution) : List (String × ℕ) :=
  [("normal", d.normal), ("wasted", d.wasted), ("severely_wasted", d.severely_wasted),
   ("overweight", d.overweight), ("obese", d.obese)]

/-- Sum of the five category counts of the dict. -/
def Distribution.total (d : Distribution) : ℕ :=
  d.normal + d.wasted + d.severely_wasted + d.overweight + d.obese

/-- One loop iteration of `_calculate_accurate_bmi_distribution`: increment
the counter selected by the threshold chain. -/
def Distribution.bump (d : Distribution) (bmi : ℚ) : Distribution :=
  match classify bmi with
  | .severelyWasted => { d with severely_wasted := d.severely_wasted + 1 }
  | .wasted => { d with wasted := d.wasted + 1 }
  | .normal => { d with normal := d.normal + 1 }
  | .overweight => { d with overweight := d.overweight + 1 }
  | .obese => { d with obese := d.obese + 1 }

/-- The loop body of `_calculate_accurate_bmi_distribution` applied to one
student (`bmi = student.bmi`, then the threshold chain). -/
def distStep (d : Distribution) (s : Student) : Distribution :=
  match s.bmi with
  | some b => d.bump b
  | none => d

/-- `_calculate_accurate_bmi_distribution` (school.py): start from the
all-zero dict, keep the students whose `bmi` is non-null and positive, and
bump the counter of each one's category. -/
def calculate_accurate_bmi_distribution (students : List Student) : Distribution :=
  (students.filter Student.hasValidBmi).foldl distStep Distribution.zero

/-- The four-key distribution dict of `_calculate_student_bmi_distribution`:
`{'normal': 0, 'wasted': 0, 'severely_wasted': 0, 'overweight': 0}`. -/
structure StudentDistribution where
  normal : ℕ
  wasted : ℕ
  severely_wasted : ℕ
  overweight : ℕ
deriving DecidableEq, Repr

/-- The dict viewed as its key/value pairs, in dict-literal order. -/
def StudentDistribution.toPairs (d : StudentDistribution) : List (String × ℕ) :=
  [("normal", d.normal), ("wasted", d.wasted), ("severely_wasted", d.severely_wasted),
   ("overweight", d.overweight)]

/-- One loop iteration of `_calculate_student_bmi_distribution`: the chain
there has no `bmi < 30` test, so every `bmi` of at least 25 lands on the
`overweight` counter. -/
def StudentDistribution.bump (d : StudentDistribution) (bmi : ℚ) : StudentDistribution :=
  if bmi < 16 then { d with severely_wasted := d.severely_wasted + 1 }
  else if bmi < 18.5 then { d with wasted := d.wasted + 1 }
  else if bmi < 25 then { d with normal := d.normal + 1 }
  else { d with overweight := d.overweight + 1 }

/-- The loop body of `_calculate_student_bmi_distribution` applied to one
student. -/
def studentDistStep (d : StudentDistribution) (s : Student) : StudentDistribution :=
  match s.bmi with
  | some b => d.bump b
  | none => d

/-- `_calculate_student_bmi_distribution` (school.py). -/
def calculate_student_bmi_distribution (students : List Student) : StudentDistribution :=
  (students.filter Student.hasValidBmi).foldl studentDistStep
    { normal := 0, wasted := 0, severely_wasted := 0, overweight := 0 }

/-- The six-key distribution dict built inside `_get_super_admin_dashboard_data`
(school.py): `{'underweight': 0, 'normal': 0, 'overweight': 0, 'obese': 0,
'severely_wasted': 0, 'wasted': 0}`; the `underweight` key is initialised but
never incremented. -/
structure DashboardDistribution where
  underweight : ℕ
  normal : ℕ
  overweight : ℕ
  obese : ℕ
  severely_wasted : ℕ
  wasted : ℕ
deriving DecidableEq, Repr

/-- Sum of the five BMI-category counts of the dashboard dict (the
`underweight` key is a sixth, always-zero entry on top of these). -/
def DashboardDistribution.categoryTotal (d : DashboardDistribution) : ℕ :=
  d.severely_wasted + d.wasted + d.normal + d.overweight + d.obese

/-- One loop iteration of the `_get_super_admin_dashboard_data` distribution. -/
def DashboardDistribution.bump (d : DashboardDistribution) (bmi : ℚ) : DashboardDistribution :=
  match classify bmi with
  | .severelyWasted => { d with severely_wasted := d.severely_wasted + 1 }
  | .wasted => { d with wasted := d.wasted + 1 }
  | .normal => { d with normal := d.normal + 1 }
  | .overweight => { d with overweight := d.overweight + 1 }
  | .obese => { d with obese := d.obese + 1 }

/-- The loop body of the `_get_super_admin_dashboard_data` distribution
applied to one student. -/
def dashboardDistStep (d : DashboardDistribution) (s : Student) : DashboardDistribution :=
  match s.bmi with
  | some b => d.bump b
  | none => d

/-- The BMI-distribution part of `_get_super_admin_dashboard_data` (school.py):
the query filters only on `Student.bmi != None` — there is no positivity
filter — and the loop then applies the threshold chain to every such record. -/
def get_super_admin_dashboard_distribution (students : List Student) : DashboardDistribution :=
  (students.filter Student.bmiNotNull).foldl dashboardDistStep
    { underweight := 0, normal := 0, overweight := 0, obese := 0,
      severely_wasted := 0, wasted := 0 }

/-- The eight-key distribution dict of the super-admin `dashboard` route
(super_admin.py): the five category keys plus `underweight`,
`severely_underweight` and a second count of the two wasted buckets kept
for template compatibility. -/
structure SuperAdminDistribution where
  underweight : ℕ
  normal : ℕ
  overweight : ℕ
  obese : ℕ
  severely_underweight : ℕ
  severely_wasted : ℕ
  wasted : ℕ
deriving DecidableEq, Repr

/-- Sum of the five BMI-category counts of the super-admin dict (the
`underweight` and `severely_underweight` keys duplicate the two wasted
buckets on top of these). -/
def SuperAdminDistribution.categoryTotal (d : SuperAdminDistribution) : ℕ :=
  d.severely_wasted + d.wasted + d.normal + d.overweight + d.obese

/-- The loop body of the super-admin `dashboard` distribution applied to
one student: a BMI below 16 bumps both `severely_underweight` and
`severely_wasted`, one in `[16, 18.5)` bumps both `underweight` and
`wasted`. -/
def superAdminDistStep (d : SuperAdminDistribution) (s : Student) : SuperAdminDistribution :=
  match s.bmi with
  | none => d
  | some b =>
    match classify b with
    | .severelyWasted =>
        { d with severely_underweight := d.severely_underweight + 1,
                 severely_wasted := d.severely_wasted + 1 }
    | .wasted => { d with underweight := d.underweight + 1, wasted := d.wasted + 1 }
    | .normal => { d with normal := d.normal + 1 }
    | .overweight => { d with overweight := d.overweight + 1 }
    | .obese => { d with obese := d.obese + 1 }

/-- The BMI-distribution loop of the super-admin `dashboard` route
(super_admin.py): it too filters only on `Student.bmi.isnot(None)`. -/
def super_admin_dashboard_distribution (students : List Student) : SuperAdminDistribution :=
  (students.filter Student.bmiNotNull).foldl superAdminDistStep
    { underweight := 0, normal := 0, overweight := 0, obese := 0,
      severely_underweight := 0, severely_wasted := 0, wasted := 0 }

/-- The predicate of the at-risk loop body in `_get_at_risk_students`
(school.py): valid BMI, and then severely underweight (`bmi < 16`) or obese
(`bmi >= 30`). -/
def Student.atRiskSevere (s : Student) : Bool :=
  match s.bmi with
  | none => false
  | some b => decide (0 < b) && (decide (b < 16) || decide (30 ≤ b))

/-- `_get_at_risk_students` (school.py): collect the students matching
`atRiskSevere`, then sort ascending by BMI (`s.bmi if s.bmi else 0`). -/
def get_at_risk_students (school_students : List Student) : List Student :=
  (school_students.filter Student.atRiskSevere).mergeSort
    (fun a b =>
      decide ((match a.bmi with | some x => if x ≠ 0 then x else 0 | none => 0) ≤
              (match b.bmi with | some x => if x ≠ 0 then x else 0 | none => 0)))

/-- The at-risk filter of the super-admin `dashboard` route (super_admin.py):
`Student.bmi.isnot(None), (Student.bmi < 18.5) | (Student.bmi >= 25)`. -/
def Student.atRiskDashboard (s : Student) : Bool :=
  match s.bmi with
  | none => false
  | some b => decide (b < 18.5) || decide (25 ≤ b)

/-- `at_risk_students` count of the super-admin `dashboard` route. -/
def dashboard_at_risk_count (students : List Student) : ℕ :=
  students.countP Student.atRiskDashboard

/-- The at-risk rule the claim states: BMI present (non-null) and outside
the Normal range (`bmi < 18.5` or `bmi >= 25`). Written from the spec, to be
compared with the two rules found in the code. -/
def Student.atRiskClaim (s : Student) : Bool :=
  match s.bmi with
  | none => false
  | some b => decide (b < 18.5) || decide (25 ≤ b)

/-- `round(x, 1)`: round to one decimal place. -/
def round1 (q : ℚ) : ℚ :=
  (round (q * 10) : ℤ) / 10

/-- `sum(s.bmi for s in l) / len(l)`. -/
def avgBmi (l : List Student) : ℚ :=
  (l.filterMap Student.bmi).sum / (l.length : ℚ)

/-- The bucket filter of `_calculate_improved_bmi_progress` (school.py):
`s.bmi is not None and s.bmi > 0 and s.created_at and
s.created_at.month == m and s.created_at.year == y`. -/
def Student.inMonthBucket (m y : ℕ) (s : Student) : Bool :=
  s.hasValidBmi &&
    (match s.created_at with
     | some (cm, cy) => decide (cm = m) && decide (cy = y)
     | none => false)

/-- One bucket value of `_calculate_improved_bmi_progress` (school.py): the
rounded average BMI of the bucket; an empty bucket falls back to the rounded
average over every student with valid BMI, and when no student at all has
valid BMI the value is the default healthy BMI 18.5. -/
def improved_bmi_progress_value (students : List Student) (m y : ℕ) : ℚ :=
  let month_students := students.filter (Student.inMonthBucket m y)
  if month_students ≠ [] then
    round1 (avgBmi month_students)
  else
    let all_students_with_bmi := students.filter Student.hasValidBmi
    if all_students_with_bmi ≠ [] then
      round1 (avgBmi all_students_with_bmi)
    else
      18.5

/-- The bucket filter of `_calculate_monthly_progress_trends` (school.py):
`MONTH(created_at) = m OR MONTH(updated_at) = m` (a null timestamp never
matches). -/
def Student.inTrendsMonth (m : ℕ) (s : Student) : Bool :=
  (match s.created_at with | some (cm, _) => decide (cm = m) | none => false) ||
  (match s.updated_at with | some (um, _) => decide (um = m) | none => false)

/-- `len([s for s in l if 18.5 <= s.bmi < 25]) / len(l) * 100`. -/
def healthyShare (l : List Student) : ℚ :=
  ((l.countP fun s =>
      match s.bmi with
      | some b => decide (18.5 ≤ b) && decide (b < 25)
      | none => false) : ℚ) / (l.length : ℚ) * 100

/-- One month value of `_calculate_monthly_progress_trends` (school.py): the
rounded share of healthy BMIs among the month's students that have a truthy
BMI; an empty bucket (or a bucket with no BMI data) falls back to the share
over all students with non-null BMI, and when no student has BMI data the
value is 0. -/
def monthly_trends_value (students : List Student) (m : ℕ) : ℚ :=
  let month_students := students.filter (Student.inTrendsMonth m)
  if month_students = [] then
    let all_students := students.filter Student.bmiNotNull
    if all_students ≠ [] then round1 (healthyShare all_students) else round1 0
  else
    let with_bmi := month_students.filter Student.bmiTruthy
    if with_bmi ≠ [] then
      round1 (healthyShare with_bmi)
    else
      let all_students := students.filter Student.bmiNotNull
      if all_students ≠ [] then round1 (healthyShare all_students) else round1 0

/-- Division as Python performs it: `a / b` raises `ZeroDivisionError`
when `b = 0`. -/
def pyDiv (a b : ℚ) : Except String ℚ :=
  if b = 0 then .error "ZeroDivisionError" else .ok (a / b)

/-- A comparison applied to a possibly-null BMI, as Python performs it:
comparing `None` against a number raises `TypeError`. -/
def pyBmiTest (bmi : Option ℚ) (f : ℚ → Bool) : Except String Bool :=
  match bmi with
  | none => .error "TypeError"
  | some b => .ok (f b)

/-- `len([s for s in l if test(s.bmi)])` where the test compares the raw
`bmi` field and hence raises on a null BMI. -/
def pyCountBmi (l : List Student) (f : ℚ → Bool) : Except String ℕ :=
  match l with
  | [] => .ok 0
  | s :: rest => do
      let b ← pyBmiTest s.bmi f
      let n ← pyCountBmi rest f
      pure ((if b then 1 else 0) + n)

/-- `[s for s in l if test(s.bmi)]` with the same raising comparison. -/
def pyFilterBmi (l : List Student) (f : ℚ → Bool) : Except String (List Student) :=
  match l with
  | [] => .ok []
  | s :: rest => do
      let b ← pyBmiTest s.bmi f
      let tail ← pyFilterBmi rest f
      pure (if b then s :: tail else tail)

/-- The summary dict of `_calculate_progress_trends` (school.py); the
`labels` and `values` entries are always returned empty. -/
structure ProgressTrends where
  labels : List String
  values : List ℚ
  nutritional_improvement : ℚ
  program_compliance : ℚ
  data_quality : ℚ
deriving DecidableEq, Repr

/-- The all-zero summary returned on empty input and by the exception
handler of `_calculate_progress_trends`. -/
def ProgressTrends.zero : ProgressTrends :=
  { labels := [], values := [], nutritional_improvement := 0,
    program_compliance := 0, data_quality := 0 }

/-- The `try`-body of `_calculate_progress_trends` (school.py), with every
potentially raising operation made explicit: the chained BMI comparisons
raise `TypeError` on a null BMI, and each division raises on a zero
denominator. `total_students` stands for the `Student.query.count()` the
body reads. -/
def progress_trends_body (students_with_bmi : List Student) (total_students : ℕ) :
    Except String ProgressTrends := do
  if students_with_bmi = [] then
    pure ProgressTrends.zero
  else
    let healthy_bmi ← pyCountBmi students_with_bmi
      (fun b => decide (18.5 ≤ b) && decide (b < 25))
    let q1 ← pyDiv (healthy_bmi : ℚ) (students_with_bmi.length : ℚ)
    let nutritional_improvement := round1 (q1 * 100)
    let at_risk_students ← pyFilterBmi students_with_bmi
      (fun b => decide (b < 18.5) || decide (25 ≤ b))
    let at_risk_in_program := at_risk_students.countP Student.is_beneficiary
    let program_compliance ←
      if at_risk_students ≠ [] then do
        let q2 ← pyDiv (at_risk_in_program : ℚ) (at_risk_students.length : ℚ)
        pure (round1 (q2 * 100))
      else
        pure (0 : ℚ)
    let data_quality ←
      if 0 < total_students then do
        let q3 ← pyDiv (students_with_bmi.length : ℚ) (total_students : ℚ)
        pure (round1 (q3 * 100))
      else
        pure (0 : ℚ)
    pure { labels := [], values := [], nutritional_improvement := nutritional_improvement,
           program_compliance := program_compliance, data_quality := data_quality }

/-- `_calculate_progress_trends` (school.py): the body wrapped in the
`try/except` that substitutes the all-zero summary for any raised fault. -/
def calculate_progress_trends (students_with_bmi : List Student) (total_students : ℕ) :
    ProgressTrends :=
  match progress_trends_body students_with_bmi total_students with
  | .ok r => r
  | .error _ => ProgressTrends.zero

/-- The summary dict of `_calculate_health_metrics` (school.py). -/
structure HealthMetrics where
  improved_count : ℕ
  stable_count : ℕ
  declined_count : ℕ
  improvement_rate : ℚ
deriving DecidableEq, Repr

/-- The all-zero summary returned on empty input and by the exception
handler of `_calculate_health_metrics`. -/
def HealthMetrics.zero : HealthMetrics :=
  { improved_count := 0, stable_count := 0, declined_count := 0, improvement_rate := 0 }

/-- The `try`-body of `_calculate_health_metrics` (school.py): every BMI
comparison is guarded by `s.bmi is not None and s.bmi > 0`, so the only
potentially raising operation is the (itself guarded) division. -/
def health_metrics_body (beneficiary_students : List Student) : Except String HealthMetrics := do
  if beneficiary_students = [] then
    pure HealthMetrics.zero
  else
    let total := beneficiary_students.length
    let improved := beneficiary_students.countP fun s =>
      s.hasValidBmi &&
        (match s.bmi with
         | some b => decide (18.5 ≤ b) && decide (b < 25)
         | none => false)
    let stable := beneficiary_students.countP fun s =>
      s.hasValidBmi &&
        (match s.bmi with
         | some b => (decide (16 ≤ b) && decide (b < 18.5)) ||
                     (decide (25 ≤ b) && decide (b < 30))
         | none => false)
    let declined := beneficiary_students.countP fun s =>
      s.hasValidBmi &&
        (match s.bmi with
         | some b => decide (b < 16) || decide (30 ≤ b)
         | none => false)
    let improvement_rate ←
      if 0 < total then do
        let q ← pyDiv (improved : ℚ) (total : ℚ)
        pure (q * 100)
      else
        pure (0 : ℚ)
    pure { improved_count := improved, stable_count := stable, declined_count := declined,
           improvement_rate := round1 improvement_rate }

/-- `_calculate_health_metrics` (school.py): the body wrapped in its
`try/except`. -/
def calculate_health_metrics (beneficiary_students : List Student) : HealthMetrics :=
  match health_metrics_body beneficiary_students with
  | .ok r => r
  | .error _ => HealthMetrics.zero

/-- One school's entry of `_calculate_school_performance` (school.py). -/
structure SchoolPerformance where
  students_count : ℕ
  beneficiaries : ℕ
  at_risk : ℕ
  performance_score : ℚ
  data_completeness : ℚ
  improvement_rate : ℚ
deriving DecidableEq, Repr

/-- The per-school metric block of `_calculate_school_performance`
(school.py): the zero-student case short-circuits every metric to 0;
otherwise each rate carries its own zero-denominator guard, and the
displayed rates are rounded to one decimal place. -/
def calculate_school_performance_entry (students : List Student) : SchoolPerformance :=
  let student_count := students.length
  if student_count = 0 then
    { students_count := 0, beneficiaries := 0, at_risk := 0,
      performance_score := 0, data_completeness := 0, improvement_rate := 0 }
  else
    let beneficiaries := students.countP Student.is_beneficiary
    let at_risk := students.countP fun s =>
      match s.bmi with
      | some b => decide (b ≠ 0) && (decide (b < 18.5) || decide (25 ≤ b))
      | none => false
    let with_bmi_data := students.countP Student.bmiTruthy
    let data_completeness :=
      if 0 < student_count then (with_bmi_data : ℚ) / (student_count : ℚ) * 100 else 0
    let improved := students.countP fun s =>
      (match s.bmi with
       | some b => decide (b ≠ 0) && decide (18.5 ≤ b) && decide (b < 25)
       | none => false) && s.is_beneficiary
    let improvement_rate :=
      if 0 < beneficiaries then (improved : ℚ) / (beneficiaries : ℚ) * 100 else 0
    { students_count := student_count, beneficiaries := beneficiaries, at_risk := at_risk,
      performance_score := round1 ((data_completeness + improvement_rate) / 2),
      data_completeness := round1 data_completeness,
      improvement_rate := round1 improvement_rate }

/-- `beneficiary_coverage` of the super-admin `dashboard` route
(super_admin.py): `(beneficiaries / max(total_students, 1)) * 100 if
total_students > 0 else 0`. -/
def beneficiary_coverage (beneficiaries total_students : ℕ) : ℚ :=
  if 0 < total_students then
    ((beneficiaries : ℚ) / ((max total_students 1 : ℕ) : ℚ)) * 100
  else
    0

/-- The coverage rate over a concrete population: the beneficiary count is
the number of records with `is_beneficiary` set, the denominator the
population size. -/
def dashboard_beneficiary_coverage (students : List Student) : ℚ :=
  beneficiary_coverage (students.countP Student.is_beneficiary) students.length

/-- The shared test of the two admin write paths:
`student.bmi and (student.bmi < 18.5 or student.bmi >= 25)` (Python
truthiness: a null or zero BMI fails the first conjunct). -/
def beneficiary_condition (bmi : Option ℚ) : Bool :=
  match bmi with
  | none => false
  | some b => decide (b ≠ 0) && (decide (b < 18.5) || decide (25 ≤ b))

/-- The `is_beneficiary` value stored by `edit_student` (school.py): the
test drives both branches (`True` when it holds, `False` otherwise). -/
def edit_student_flag (bmi : Option ℚ) : Bool :=
  if beneficiary_condition bmi then true else false

/-- The `is_beneficiary` value stored by `create_student` (school.py): the
test only ever promotes the flag to `True`; there is no `else` branch, so
the prior value is kept otherwise. -/
def create_student_flag (bmi : Option ℚ) (flag : Bool) : Bool :=
  if beneficiary_condition bmi then true else flag

/-! ## Helper lemmas -/

/-- Category membership of one student: a non-null BMI classified to `c`. -/
def catPred (c : BmiCategory) (s : Student) : Bool :=
  match s.bmi with
  | some b => decide (classify b = c)
  | none => false

/-- A convenience constructor for concrete snapshots. -/
def mkStudent (b : Option ℚ) : Student :=
  { bmi := b, is_beneficiary := false, created_at := none, updated_at := none }

theorem foldl_distStep (l : List Student) (d : Distribution) :
    l.foldl distStep d =
      { normal := d.normal + l.countP (catPred .normal),
        wasted := d.wasted + l.countP (catPred .wasted),
        severely_wasted := d.severely_wasted + l.countP (catPred .severelyWasted),
        overweight := d.overweight + l.countP (catPred .overweight),
        obese := d.obese + l.countP (catPred .obese) } := by
  induction l generalizing d with
  | nil => simp
  | cons s rest ih =>
    rw [List.foldl_cons, ih]
    simp only [List.countP_cons, Distribution.mk.injEq]
    cases h : s.bmi with
    | none => simp [distStep, h, catPred]
    | some b =>
      cases hc : classify b <;>
        simp [distStep, h, catPred, Distribution.bump, hc] <;> omega

/-- `_calculate_accurate_bmi_distribution` in closed form: each counter is
the number of input students with valid BMI in that category. -/
theorem calculate_accurate_eq (students : List Student) :
    calculate_accurate_bmi_distribution students =
      { normal := students.countP (fun s => catPred .normal s && s.hasValidBmi),
        wasted := students.countP (fun s => catPred .wasted s && s.hasValidBmi),
        severely_wasted := students.countP (fun s => catPred .severelyWasted s && s.hasValidBmi),
        overweight := students.countP (fun s => catPred .overweight s && s.hasValidBmi),
        obese := students.countP (fun s => catPred .obese s && s.hasValidBmi) } := by
  unfold calculate_accurate_bmi_distribution
  rw [foldl_distStep]
  simp [Distribution.zero, List.countP_filter]

theorem foldl_distStep_total (l : List Student) (d : Distribution) :
    (l.foldl distStep d).total = d.total + l.countP (fun s => s.bmi.isSome) := by
  induction l generalizing d with
  | nil => simp
  | cons s rest ih =>
    rw [List.foldl_cons, ih, List.countP_cons]
    cases h : s.bmi with
    | none => simp [distStep, h]
    | some b =>
      cases hc : classify b <;>
        simp [distStep, h, Distribution.bump, hc, Distribution.total] <;> omega

theorem foldl_dashboardDistStep_total (l : List Student) (d : DashboardDistribution) :
    (l.foldl dashboardDistStep d).categoryTotal =
      d.categoryTotal + l.countP (fun s => s.bmi.isSome) := by
  induction l generalizing d with
  | nil => simp
  | cons s rest ih =>
    rw [List.foldl_cons, ih, List.countP_cons]
    cases h : s.bmi with
    | none => simp [dashboardDistStep, h]
    | some b =>
      cases hc : classify b <;>
        simp [dashboardDistStep, h, DashboardDistribution.bump, hc,
          DashboardDistribution.categoryTotal] <;> omega

theorem foldl_superAdminDistStep_total (l : List Student) (d : SuperAdminDistribution) :
    (l.foldl superAdminDistStep d).categoryTotal =
      d.categoryTotal + l.countP (fun s => s.bmi.isSome) := by
  induction l generalizing d with
  | nil => simp
  | cons s rest ih =>
    rw [List.foldl_cons, ih, List.countP_cons]
    cases h : s.bmi with
    | none => simp [superAdminDistStep, h]
    | some b =>
      cases hc : classify b <;>
        simp [superAdminDistStep, h, hc, SuperAdminDistribution.categoryTotal] <;> omega

theorem accurate_total_eq (students : List Student) :
    (calculate_accurate_bmi_distribution students).total =
      students.countP Student.hasValidBmi := by
  unfold calculate_accurate_bmi_distribution
  rw [foldl_distStep_total, List.countP_filter]
  have hz : Distribution.zero.total = 0 := rfl
  rw [hz, Nat.zero_add]
  apply List.countP_congr
  intro s _
  cases h : s.bmi <;> simp [Student.hasValidBmi, h]

theorem dashboard_total_eq (students : List Student) :
    (get_super_admin_dashboard_distribution students).categoryTotal =
      students.countP Student.bmiNotNull := by
  unfold get_super_admin_dashboard_distribution
  rw [foldl_dashboardDistStep_total, List.countP_filter]
  simp only [DashboardDistribution.categoryTotal, Nat.add_zero, Nat.zero_add]
  apply List.countP_congr
  intro s _
  cases h : s.bmi <;> simp [Student.bmiNotNull, h]

theorem super_admin_total_eq (students : List Student) :
    (super_admin_dashboard_distribution students).categoryTotal =
      students.countP Student.bmiNotNull := by
  unfold super_admin_dashboard_distribution
  rw [foldl_superAdminDistStep_total, List.countP_filter]
  simp only [SuperAdminDistribution.categoryTotal, Nat.add_zero, Nat.zero_add]
  apply List.countP_congr
  intro s _
  cases h : s.bmi <;> simp [Student.bmiNotNull, h]

theorem get_at_risk_length (students : List Student) :
    (get_at_risk_students students).length = students.countP Student.atRiskSevere := by
  unfold get_at_risk_students
  rw [(List.mergeSort_perm _ _).length_eq, ← List.countP_eq_length_filter]

/-! ## Claim theorems -/

/-- C1: for every `bmi > 0` the classifier assigns the category by the fixed
half-open thresholds with inclusive lower bounds (`bmi < 16` severely wasted,
`[16, 18.5)` wasted, `[18.5, 25)` normal, `[25, 30)` overweight, `>= 30`
obese); in particular `classify 16` is wasted, `classify 25` overweight and
`classify 30` obese. -/
theorem claim1_classifier_thresholds (bmi : ℚ) (hpos : 0 < bmi) :
    (bmi < 16 → classify bmi = .severelyWasted) ∧
    (16 ≤ bmi → bmi < 18.5 → classify bmi = .wasted) ∧
    (18.5 ≤ bmi → bmi < 25 → classify bmi = .normal) ∧
    (25 ≤ bmi → bmi < 30 → classify bmi = .overweight) ∧
    (30 ≤ bmi → classify bmi = .obese) ∧
    classify 16 = .wasted ∧ classify 25 = .overweight ∧ classify 30 = .obese := by
  have _ := hpos
  refine ⟨?_, ?_, ?_, ?_, ?_, ?_, ?_, ?_⟩
  · intro h
    unfold classify
    rw [if_pos h]
  · intro h1 h2
    unfold classify
    rw [if_neg (by linarith), if_pos h2]
  · intro h1 h2
    unfold classify
    rw [if_neg (by linarith), if_neg (by linarith), if_pos h2]
  · intro h1 h2
    unfold classify
    rw [if_neg (by linarith), if_neg (by linarith), if_neg (by linarith), if_pos h2]
  · intro h
    unfold classify
    rw [if_neg (by linarith), if_neg (by linarith), if_neg (by linarith),
      if_neg (by linarith)]
  · norm_num [classify]
  · norm_num [classify]
  · norm_num [classify]

/-- Witness for C1: the classifier evaluated at the concrete BMI 20. -/
theorem claim1_classifier_thresholds_witness :
    (0 : ℚ) < 20 ∧ classify 20 = .normal :=
  ⟨by norm_num,
   (claim1_classifier_thresholds 20 (by norm_num)).2.2.1 (by norm_num) (by norm_num)⟩

/-- C2 counterexample: on the super-admin dashboard aggregation a record
with a stored BMI of 0 is counted (as severely wasted), so the sum of the
category counts is 1 while no record has a non-null strictly positive BMI. -/
theorem claim2_counterexample :
    (get_super_admin_dashboard_distribution [mkStudent (some 0)]).categoryTotal = 1 ∧
    [mkStudent (some 0)].countP Student.hasValidBmi = 0 ∧
    (get_super_admin_dashboard_distribution [mkStudent (some 0)]).categoryTotal ≠
      [mkStudent (some 0)].countP Student.hasValidBmi := by
  have h1 : (get_super_admin_dashboard_distribution [mkStudent (some 0)]).categoryTotal = 1 := by
    norm_num [get_super_admin_dashboard_distribution, mkStudent, Student.bmiNotNull,
      List.filter, dashboardDistStep, DashboardDistribution.bump, classify,
      DashboardDistribution.categoryTotal]
  have h2 : [mkStudent (some 0)].countP Student.hasValidBmi = 0 := by
    norm_num [List.countP_cons, List.countP_nil, mkStudent, Student.hasValidBmi]
  exact ⟨h1, h2, by rw [h1, h2]; exact one_ne_zero⟩

/-- C2 (amended): for `_calculate_accurate_bmi_distribution` the sum of the
five category counts equals the number of records with non-null strictly
positive BMI; the two super-admin dashboard aggregations filter only on the
BMI being non-null, so there the sum of the five category counts equals the
number of records with non-null BMI, a zero or negative stored BMI being
counted as severely wasted. -/
theorem claim2_amended_totals (students : List Student) :
    (calculate_accurate_bmi_distribution students).total =
      students.countP Student.hasValidBmi ∧
    (get_super_admin_dashboard_distribution students).categoryTotal =
      students.countP Student.bmiNotNull ∧
    (super_admin_dashboard_distribution students).categoryTotal =
      students.countP Student.bmiNotNull :=
  ⟨accurate_total_eq students, dashboard_total_eq students, super_admin_total_eq students⟩

/-- C3 counterexample: `_calculate_student_bmi_distribution` returns a dict
with no `obese` key at all — a student with BMI 32 is counted under
`overweight` and looking the `obese` key up in the returned mapping fails. -/
theorem claim3_counterexample :
    calculate_student_bmi_distribution [mkStudent (some 32)] =
      { normal := 0, wasted := 0, severely_wasted := 0, overweight := 1 } ∧
    (StudentDistribution.toPairs
      { normal := 0, wasted := 0, severely_wasted := 0, overweight := 1 }).lookup "obese" =
      none := by
  constructor
  · norm_num [calculate_student_bmi_distribution, mkStudent, Student.hasValidBmi,
      List.filter, studentDistStep, StudentDistribution.bump]
  · rfl

/-- C3 (amended): every summary returned by
`_calculate_accurate_bmi_distribution` carries exactly the five category
keys, but `_calculate_student_bmi_distribution` returns only the four keys
`normal`, `wasted`, `severely_wasted`, `overweight`: it has no `obese` key,
and every BMI of at least 25 increments its `overweight` counter. -/
theorem claim3_amended_keys (students : List Student) (d : StudentDistribution)
    (b : ℚ) (hb : 25 ≤ b) :
    (calculate_accurate_bmi_distribution students).toPairs.map Prod.fst =
      ["normal", "wasted", "severely_wasted", "overweight", "obese"] ∧
    (calculate_student_bmi_distribution students).toPairs.map Prod.fst =
      ["normal", "wasted", "severely_wasted", "overweight"] ∧
    (d.bump b).overweight = d.overweight + 1 := by
  refine ⟨rfl, rfl, ?_⟩
  unfold StudentDistribution.bump
  rw [if_neg (by linarith), if_neg (by linarith), if_neg (by linarith)]

/-- Witness for C3 (amended) at the empty input, the all-zero dict and
BMI 32. -/
theorem claim3_amended_keys_witness :
    (calculate_accurate_bmi_distribution []).toPairs.map Prod.fst =
      ["normal", "wasted", "severely_wasted", "overweight", "obese"] ∧
    (calculate_student_bmi_distribution []).toPairs.map Prod.fst =
      ["normal", "wasted", "severely_wasted", "overweight"] ∧
    (StudentDistribution.bump ⟨0, 0, 0, 0⟩ 32).overweight = 0 + 1 :=
  claim3_amended_keys [] _ 32 (by norm_num)

/-- C4 counterexample: a student with BMI 17 is outside the Normal range,
so the claim counts them as at-risk, but `_get_at_risk_students` keeps only
the severe cases (`bmi < 16` or `bmi >= 30`) and returns nobody. -/
theorem claim4_counterexample :
    (get_at_risk_students [mkStudent (some 17)]).length = 0 ∧
    [mkStudent (some 17)].countP Student.atRiskClaim = 1 := by
  constructor
  · rw [get_at_risk_length]
    norm_num [List.countP_cons, List.countP_nil, mkStudent, Student.atRiskSevere]
  · norm_num [List.countP_cons, List.countP_nil, mkStudent, Student.atRiskClaim]

/-- C4 (amended): the two code paths use different at-risk rules. The
super-admin dashboard counts exactly the students with non-null BMI outside
the Normal range (`bmi < 18.5` or `bmi >= 25`), as the claim states; but
`_get_at_risk_students` counts only the severe cases, the students with
positive BMI below 16 or at least 30. -/
theorem claim4_amended_at_risk (students : List Student) :
    dashboard_at_risk_count students = students.countP Student.atRiskClaim ∧
    (get_at_risk_students students).length = students.countP Student.atRiskSevere :=
  ⟨rfl, get_at_risk_length students⟩

/-- C7: the aggregator applied to the empty collection returns the summary
with every category count 0 (the function returns, it does not raise). -/
theorem claim7_aggregate_empty :
    calculate_accurate_bmi_distribution [] =
      { normal := 0, wasted := 0, severely_wasted := 0, overweight := 0, obese := 0 } :=
  rfl

/-- C8: the aggregator is invariant under reordering of its input. -/
theorem claim8_aggregate_perm (l l2 : List Student) (h : l.Perm l2) :
    calculate_accurate_bmi_distribution l = calculate_accurate_bmi_distribution l2 := by
  rw [calculate_accurate_eq, calculate_accurate_eq]
  simp only [Distribution.mk.injEq]
  exact ⟨h.countP_eq _, h.countP_eq _, h.countP_eq _, h.countP_eq _, h.countP_eq _⟩

/-- Witness for C8: swapping two concrete students leaves the summary
unchanged. -/
theorem claim8_aggregate_perm_witness :
    calculate_accurate_bmi_distribution [mkStudent (some 17), mkStudent (some 20)] =
      calculate_accurate_bmi_distribution [mkStudent (some 20), mkStudent (some 17)] :=
  claim8_aggregate_perm _ _ (List.Perm.swap _ _ _)

/-- C5 counterexample: in `_calculate_monthly_progress_trends`, when the
entire population has no BMI data at all, the reported bucket value (here
for April) is 0, not the fixed healthy default 18.5. -/
theorem claim5_counterexample :
    monthly_trends_value [] 4 = 0 ∧ (0 : ℚ) ≠ 18.5 := by
  constructor
  · norm_num [monthly_trends_value, List.filter, round1]
  · norm_num

/-- C5 (amended): in `_calculate_improved_bmi_progress` an empty month
bucket falls back to the rounded average BMI of the whole population, and
when nobody has valid BMI data the bucket value is the healthy default
18.5; in `_calculate_monthly_progress_trends` an empty month bucket falls
back to the rounded healthy share of the whole population, but when nobody
has BMI data the bucket value is 0, not 18.5. -/
theorem claim5_amended_trend_fallbacks :
    (∀ (students : List Student) (m y : ℕ),
        students.filter (Student.inMonthBucket m y) = [] →
        students.filter Student.hasValidBmi ≠ [] →
        improved_bmi_progress_value students m y =
          round1 (avgBmi (students.filter Student.hasValidBmi))) ∧
    (∀ (students : List Student) (m y : ℕ),
        students.filter Student.hasValidBmi = [] →
        improved_bmi_progress_value students m y = 18.5) ∧
    (∀ (students : List Student) (m : ℕ),
        students.filter (Student.inTrendsMonth m) = [] →
        students.filter Student.bmiNotNull ≠ [] →
        monthly_trends_value students m =
          round1 (healthyShare (students.filter Student.bmiNotNull))) ∧
    (∀ (students : List Student) (m : ℕ),
        students.filter Student.bmiNotNull = [] →
        monthly_trends_value students m = 0) := by
  refine ⟨?_, ?_, ?_, ?_⟩
  · intro students m y h1 h2
    simp [improved_bmi_progress_value, h1, h2]
  · intro students m y h
    have hm : students.filter (Student.inMonthBucket m y) = [] := by
      rw [List.filter_eq_nil_iff] at h ⊢
      intro s hs hmem
      exact h s hs (by
        revert hmem
        unfold Student.inMonthBucket
        cases s.hasValidBmi <;> simp)
    simp [improved_bmi_progress_value, hm, h]
  · intro students m h1 h2
    simp [monthly_trends_value, h1, h2]
  · intro students m h
    have hnn : ∀ s ∈ students, ¬(s.bmiNotNull = true) := List.filter_eq_nil_iff.1 h
    by_cases hm : students.filter (Student.inTrendsMonth m) = []
    · simp [monthly_trends_value, hm, h, round1]
    · have hw : (students.filter (Student.inTrendsMonth m)).filter Student.bmiTruthy = [] := by
        rw [List.filter_eq_nil_iff]
        intro s hs ht
        have hsmem : s ∈ students := (List.mem_filter.1 hs).1
        apply hnn s hsmem
        revert ht
        unfold Student.bmiTruthy Student.bmiNotNull
        cases s.bmi <;> simp
      simp [monthly_trends_value, hm, hw, h, round1]

/-- Witness for C5 (amended): a single student with no BMI data gives the
18.5 default in `_calculate_improved_bmi_progress`. -/
theorem claim5_amended_trend_fallbacks_witness :
    improved_bmi_progress_value [mkStudent none] 1 2024 = 18.5 :=
  claim5_amended_trend_fallbacks.2.1 [mkStudent none] 1 2024 rfl

/-- C6: the beneficiary rate is the beneficiary count over the population
size times 100, is 0 on an empty population instead of a division error,
and the other derived rates carry the same zero-denominator guards:
the per-school entry is all-zero for a school with no students, the
improvement rate is 0 when there are no beneficiaries, and the progress
trends (with their program-compliance and data-quality rates) are all-zero
on an empty population. -/
theorem claim6_rate_zero_guards :
    (∀ b : ℕ, beneficiary_coverage b 0 = 0) ∧
    (∀ b t : ℕ, 0 < t → beneficiary_coverage b t = (b : ℚ) / (t : ℚ) * 100) ∧
    dashboard_beneficiary_coverage [] = 0 ∧
    (∀ students : List Student, students ≠ [] →
        dashboard_beneficiary_coverage students =
          (students.countP Student.is_beneficiary : ℚ) / (students.length : ℚ) * 100) ∧
    calculate_school_performance_entry [] = ⟨0, 0, 0, 0, 0, 0⟩ ∧
    (∀ students : List Student,
        students.countP Student.is_beneficiary = 0 →
        (calculate_school_performance_entry students).improvement_rate = 0) ∧
    (∀ ts : ℕ, calculate_progress_trends [] ts = ProgressTrends.zero) := by
  refine ⟨?_, ?_, ?_, ?_, rfl, ?_, ?_⟩
  · intro b
    simp [beneficiary_coverage]
  · intro b t ht
    unfold beneficiary_coverage
    rw [if_pos ht, Nat.max_eq_left ht]
  · rfl
  · intro students h
    have ht : 0 < students.length := List.length_pos.2 h
    unfold dashboard_beneficiary_coverage beneficiary_coverage
    rw [if_pos ht, Nat.max_eq_left ht]
  · intro students h
    by_cases hs : students = []
    · subst hs; rfl
    · have hlen : ¬(students.length = 0) := by
        simpa [List.length_eq_zero] using hs
      simp [calculate_school_performance_entry, hlen, h, round1]
  · intro ts
    rfl

/-- Witness for C6 at a concrete 4-of-10 population. -/
theorem claim6_rate_zero_guards_witness :
    beneficiary_coverage 4 10 = (4 : ℚ) / (10 : ℚ) * 100 :=
  claim6_rate_zero_guards.2.1 4 10 (by norm_num)

theorem pyCountBmi_ok (l : List Student) (f : ℚ → Bool) (h : ∀ s ∈ l, s.bmi.isSome) :
    pyCountBmi l f =
      .ok (l.countP fun s => match s.bmi with | some b => f b | none => false) := by
  induction l with
  | nil => rfl
  | cons s rest ih =>
    obtain ⟨b, hb⟩ := Option.isSome_iff_exists.1 (h s (List.mem_cons_self s rest))
    have ihr := ih (fun x hx => h x (List.mem_cons_of_mem _ hx))
    rw [pyCountBmi, List.countP_cons]
    simp only [pyBmiTest, hb, bind, Except.bind, ihr, pure, Except.pure, Except.ok.injEq]
    cases f b <;> simp <;> omega

theorem pyFilterBmi_ok (l : List Student) (f : ℚ → Bool) (h : ∀ s ∈ l, s.bmi.isSome) :
    pyFilterBmi l f =
      .ok (l.filter fun s => match s.bmi with | some b => f b | none => false) := by
  induction l with
  | nil => rfl
  | cons s rest ih =>
    obtain ⟨b, hb⟩ := Option.isSome_iff_exists.1 (h s (List.mem_cons_self s rest))
    have ihr := ih (fun x hx => h x (List.mem_cons_of_mem _ hx))
    rw [pyFilterBmi, List.filter_cons]
    simp only [pyBmiTest, hb, bind, Except.bind, ihr, pure, Except.pure, Except.ok.injEq]

theorem progress_trends_body_isOk (swb : List Student) (ts : ℕ)
    (h : ∀ s ∈ swb, s.bmi.isSome) :
    ∃ r, progress_trends_body swb ts = .ok r := by
  unfold progress_trends_body
  by_cases he : swb = []
  · exact ⟨ProgressTrends.zero, by simp [he, pure, Except.pure]⟩
  · have hlen : ((swb.length : ℚ)) ≠ 0 := by
      have := List.length_pos.2 he
      exact_mod_cast Nat.pos_iff_ne_zero.1 this
    rw [pyCountBmi_ok _ _ h, pyFilterBmi_ok _ _ h]
    simp only [if_neg he, bind, Except.bind, pyDiv, if_neg hlen, pure, Except.pure]
    by_cases ha : (swb.filter fun s => match s.bmi with
        | some b => decide (b < 18.5) || decide (25 ≤ b)
        | none => false) = []
    · by_cases hts : 0 < ts
      · have hts2 : ((ts : ℚ)) ≠ 0 := Nat.cast_ne_zero.mpr (Nat.pos_iff_ne_zero.1 hts)
        simp only [ha, ne_eq, not_true_eq_false, if_false, if_pos hts, if_neg hts2]
        exact ⟨_, rfl⟩
      · simp only [ha, ne_eq, not_true_eq_false, if_false, if_neg hts]
        exact ⟨_, rfl⟩
    · have hal : ((((swb.filter fun s => match s.bmi with
          | some b => decide (b < 18.5) || decide (25 ≤ b)
          | none => false).length : ℕ)) : ℚ) ≠ 0 := by
        refine Nat.cast_ne_zero.mpr ?_
        simpa [List.length_eq_zero] using ha
      by_cases hts : 0 < ts
      · have hts2 : ((ts : ℚ)) ≠ 0 := Nat.cast_ne_zero.mpr (Nat.pos_iff_ne_zero.1 hts)
        simp only [ne_eq, ha, not_false_eq_true, if_true, if_neg hal, if_pos hts, if_neg hts2]
        exact ⟨_, rfl⟩
      · simp only [ne_eq, ha, not_false_eq_true, if_true, if_neg hal, if_neg hts]
        exact ⟨_, rfl⟩

theorem health_metrics_body_isOk (bs : List Student) :
    ∃ r, health_metrics_body bs = .ok r := by
  unfold health_metrics_body
  by_cases he : bs = []
  · exact ⟨HealthMetrics.zero, by simp [he, pure, Except.pure]⟩
  · have hpos : 0 < bs.length := List.length_pos.2 he
    have hlen : ((bs.length : ℚ)) ≠ 0 := by
      exact_mod_cast Nat.pos_iff_ne_zero.1 hpos
    simp [he, hpos, hlen, pyDiv, bind, Except.bind, pure, Except.pure]

/-- C9: the classification-and-aggregation core is total. The `try`-body of
`_calculate_health_metrics` never raises on any input, the body of
`_calculate_progress_trends` never raises on any collection whose records
all carry a non-null BMI, and when a record does carry a null BMI the
raised `TypeError` is caught by the wrapper, which substitutes the all-zero
summary; on empty collections every function returns its complete all-zero
summary. -/
theorem claim9_total_core :
    (∀ (swb : List Student) (ts : ℕ), (∀ s ∈ swb, s.bmi.isSome) →
        progress_trends_body swb ts = .ok (calculate_progress_trends swb ts)) ∧
    (∀ bs : List Student,
        health_metrics_body bs = .ok (calculate_health_metrics bs)) ∧
    progress_trends_body [mkStudent none] 1 = .error "TypeError" ∧
    calculate_progress_trends [mkStudent none] 1 = ProgressTrends.zero ∧
    calculate_health_metrics [] = HealthMetrics.zero ∧
    calculate_accurate_bmi_distribution [] = Distribution.zero := by
  refine ⟨?_, ?_, rfl, rfl, rfl, rfl⟩
  · intro swb ts h
    obtain ⟨r, hr⟩ := progress_trends_body_isOk swb ts h
    rw [hr]
    unfold calculate_progress_trends
    rw [hr]
  · intro bs
    obtain ⟨r, hr⟩ := health_metrics_body_isOk bs
    rw [hr]
    unfold calculate_health_metrics
    rw [hr]

/-- Witness for C9: the progress-trends body on one concrete student with a
recorded BMI returns the computed summary rather than raising. -/
theorem claim9_total_core_witness :
    progress_trends_body [mkStudent (some 20)] 1 =
      .ok (calculate_progress_trends [mkStudent (some 20)] 1) :=
  claim9_total_core.1 [mkStudent (some 20)] 1 (by intro s hs; simp at hs; subst hs; rfl)

/-- C10: under the data-model invariant that a present BMI is positive, the
flag stored by `edit_student` is fully derived from the recomputed BMI —
true exactly when the BMI is present and outside the Normal range — while
`create_student` only ever promotes the flag to true under that condition
and never forces it to false, so the two write paths disagree (at a normal
BMI of 20 with a previously-true flag, creation keeps true, edit stores
false). -/
theorem claim10_beneficiary_write_paths (bmi : Option ℚ)
    (hinv : ∀ b : ℚ, bmi = some b → 0 < b) :
    (edit_student_flag bmi = true ↔ ∃ b : ℚ, bmi = some b ∧ (b < 18.5 ∨ 25 ≤ b)) ∧
    (∀ old : Bool, old = true → create_student_flag bmi old = true) ∧
    create_student_flag (some 20) true ≠ edit_student_flag (some 20) := by
  refine ⟨?_, ?_, ?_⟩
  · cases hb : bmi with
    | none => simp [edit_student_flag, beneficiary_condition, hb]
    | some b =>
      have hbne : b ≠ 0 := ne_of_gt (hinv b hb)
      simp [edit_student_flag, beneficiary_condition, hb, hbne]
  · intro old h
    subst h
    simp [create_student_flag]
  · norm_num [create_student_flag, edit_student_flag, beneficiary_condition]

/-- Witness for C10 at a present BMI of 15 (wasted, hence a beneficiary on
both write paths). -/
theorem claim10_beneficiary_write_paths_witness :
    (edit_student_flag (some 15) = true ↔
      ∃ b : ℚ, (some 15 : Option ℚ) = some b ∧ (b < 18.5 ∨ 25 ≤ b)) ∧
    (∀ old : Bool, old = true → create_student_flag (some 15) old = true) ∧
    create_student_flag (some 20) true ≠ edit_student_flag (some 20) :=
  claim10_beneficiary_write_paths (some 15)
    (by intro b hb; injection hb with h2; rw [← h2]; norm_num)

end NutriKid
